import Mathlib

/-
Verification of the synthetic behavioral-data generator
(`src/data_generation/` of the draftkings repository).

The Python modules are shallowly embedded: dictionaries of constants become
Lean constants over `ℚ`, the `BettingStateMachine` class becomes a Lean
structure with explicit state passing, and every pseudo-random draw is made
an explicit argument of the embedded function (a draw of
`np.random.uniform(a, b)` is represented as `a + (b - a) * u` with
`u ∈ [0, 1]` the unit draw, `np.random.normal(0, s)` as `s * z` with `z` a
standard-normal draw, `np.random.random()` as a unit draw `u`).  Monetary
amounts, probabilities and times are exact rationals; timestamps are
rational seconds since the simulation window start.
-/

namespace DataGen

/-- States of the loss-chasing state machine (`bet_generator.py`, strings
`'NORMAL'`, `'CHASING'`, `'ESCALATING'`). -/
inductive BetState
  | NORMAL
  | CHASING
  | ESCALATING
deriving DecidableEq, Repr

/-- Bet outcomes (`'win'` / `'loss'` strings in the source). -/
inductive Outcome
  | win
  | loss
deriving DecidableEq, Repr

/-- Embeds `np.clip(x, lo, hi)`. -/
def npClip (x lo hi : ℚ) : ℚ := min (max x lo) hi

/-- Embeds `config.MAX_BET_ESCALATION_MULTIPLIER = 5.0`. -/
def MAX_BET_ESCALATION_MULTIPLIER : ℚ := 5

/-- The mutable attributes of `bet_generator.BettingStateMachine`:
`base_amount`, `target_escalation`, `chase_probability`,
`late_night_baseline`, `state`, `consecutive_losses`,
`current_late_night_pct`. -/
structure BettingStateMachine where
  baseAmount : ℚ
  targetEscalation : ℚ
  chaseProbability : ℚ
  lateNightBaseline : ℚ
  state : BetState
  consecutiveLosses : ℕ
  currentLateNightPct : ℚ
deriving DecidableEq, Repr

/-- Embeds `BettingStateMachine.__init__`:
`target_escalation = max(0.9, target_escalation_ratio)`,
`chase_probability = np.clip(bet_after_loss_ratio, 0.0, 1.0)`,
`late_night_baseline = np.clip(late_night_pct, 0.0, 0.7)`,
`state = 'NORMAL'`, `consecutive_losses = 0`,
`current_late_night_pct = late_night_pct` (the raw argument). -/
def BettingStateMachine.init (baseBetAmount targetEscalationArg betAfterLossArg
    lateNightPct : ℚ) : BettingStateMachine where
  baseAmount := baseBetAmount
  targetEscalation := max (9/10) targetEscalationArg
  chaseProbability := npClip betAfterLossArg 0 1
  lateNightBaseline := npClip lateNightPct 0 (7/10)
  state := .NORMAL
  consecutiveLosses := 0
  currentLateNightPct := lateNightPct

/-- Embeds `BettingStateMachine.get_next_bet_amount`.  `u` is the unit draw
behind the `np.random.uniform` call of the branch taken
(`uniform(0.8, 1.2)` for `NORMAL`, `uniform(0.9, 1.1)` for `CHASING`;
the `ESCALATING` branch draws nothing). -/
def BettingStateMachine.getNextBetAmount (m : BettingStateMachine) (u : ℚ) : ℚ :=
  match m.state with
  | .NORMAL => m.baseAmount * (8/10 + (12/10 - 8/10) * u)
  | .CHASING => m.baseAmount * m.targetEscalation * (9/10 + (11/10 - 9/10) * u)
  | .ESCALATING =>
      m.baseAmount *
        min (m.targetEscalation ^ m.consecutiveLosses) MAX_BET_ESCALATION_MULTIPLIER

/-- Embeds `BettingStateMachine.process_outcome`.  `u` is the unit draw of
the `np.random.random() < self.chase_probability` test on the loss branch
(unused on the win branch). -/
def BettingStateMachine.processOutcome (m : BettingStateMachine) (outcome : Outcome)
    (u : ℚ) : BettingStateMachine :=
  match outcome with
  | .loss =>
      let m1 := { m with consecutiveLosses := m.consecutiveLosses + 1 }
      if u < m1.chaseProbability then
        if m1.consecutiveLosses = 1 then
          { m1 with state := .CHASING }
        else if 2 ≤ m1.consecutiveLosses then
          { m1 with
              state := .ESCALATING
              currentLateNightPct :=
                min (m1.lateNightBaseline * (1 + (m1.consecutiveLosses : ℚ) * (1/2)))
                  (7/10) }
        else m1
      else
        { m1 with state := .NORMAL, consecutiveLosses := 0 }
  | .win =>
      { m with
          state := .NORMAL
          consecutiveLosses := 0
          currentLateNightPct := m.lateNightBaseline }

/-- Embeds `BettingStateMachine.is_chasing`. -/
def BettingStateMachine.isChasing (m : BettingStateMachine) : Bool :=
  m.state = BetState.CHASING ∨ m.state = BetState.ESCALATING

/-- Claim C2: processing a loss increments the consecutive-loss counter;
when the chase draw succeeds (`u < chase_probability`) the machine moves to
`CHASING` if the counter is 1 and to `ESCALATING` if it is at least 2,
raising the current late-night fraction to
`min(baseline * (1 + losses * 0.5), 0.70)` (capped at 0.70); when the draw
fails the machine resets to `NORMAL` with a zero counter; a win always
resets to `NORMAL`, zeroes the counter and restores the baseline fraction,
regardless of prior state. -/
theorem processOutcome_spec (m : BettingStateMachine) (u : ℚ) :
    (u < m.chaseProbability → m.consecutiveLosses + 1 = 1 →
      m.processOutcome .loss u =
        { m with state := .CHASING, consecutiveLosses := 1 }) ∧
    (u < m.chaseProbability → 2 ≤ m.consecutiveLosses + 1 →
      (m.processOutcome .loss u).state = .ESCALATING ∧
      (m.processOutcome .loss u).consecutiveLosses = m.consecutiveLosses + 1 ∧
      (m.processOutcome .loss u).currentLateNightPct =
        min (m.lateNightBaseline * (1 + ((m.consecutiveLosses : ℚ) + 1) * (1/2)))
          (7/10) ∧
      (m.processOutcome .loss u).currentLateNightPct ≤ 7/10) ∧
    (¬ u < m.chaseProbability →
      m.processOutcome .loss u =
        { m with state := .NORMAL, consecutiveLosses := 0 }) ∧
    (m.processOutcome .win u =
      { m with
          state := .NORMAL
          consecutiveLosses := 0
          currentLateNightPct := m.lateNightBaseline }) := by
  refine ⟨?_, ?_, ?_, ?_⟩
  · intro hu hc
    simp only [BettingStateMachine.processOutcome]
    rw [if_pos hu]
    simp [hc]
  · intro hu hc
    have hne : ¬ m.consecutiveLosses + 1 = 1 := by omega
    simp only [BettingStateMachine.processOutcome]
    rw [if_pos hu, if_neg hne, if_pos hc]
    refine ⟨rfl, rfl, by push_cast; ring_nf, min_le_right _ _⟩
  · intro hu
    simp only [BettingStateMachine.processOutcome]
    rw [if_neg hu]
  · rfl

/-- Closed instance of `processOutcome_spec`: a machine with chase
probability 1 and no prior losses moves to `CHASING` on its first loss. -/
theorem processOutcome_spec_witness :
    (BettingStateMachine.init 10 2 1 (1/10)).processOutcome .loss (1/2) =
      { BettingStateMachine.init 10 2 1 (1/10) with
          state := .CHASING, consecutiveLosses := 1 } :=
  (processOutcome_spec (BettingStateMachine.init 10 2 1 (1/10)) (1/2)).1
    (by norm_num [BettingStateMachine.init, npClip]) rfl

/-- Embeds the `'uniform'` branch of `utils.sample_from_range`:
`random.uniform(min_val, max_val)`, i.e. `min_val + (max_val - min_val) * u`
where `u ∈ [0, 1]` is the unit draw of the Python-stdlib `random` module
(which the pipeline never seeds). -/
def sample_from_range (lo hi u : ℚ) : ℚ := lo + (hi - lo) * u

/-- Claim C3: the emitted amount is `base * Uniform(0.8, 1.2)` in `NORMAL`,
`base * escalation * Uniform(0.9, 1.1)` in `CHASING`, and
`base * min(escalation ^ consecutive_losses, 5.0)` in `ESCALATING`; and a
machine with chase probability 1 that loses twice in a row is in
`ESCALATING` with two consecutive losses and next emits
`base * min(escalation ^ 2, 5.0)`. -/
theorem getNextBetAmount_spec (m : BettingStateMachine)
    (base escArg pct u u1 u2 u3 : ℚ)
    (hu1 : 0 ≤ u1) (hu1lt : u1 < 1) (hu2 : 0 ≤ u2) (hu2lt : u2 < 1) :
    (m.state = .NORMAL →
      m.getNextBetAmount u = m.baseAmount * (8/10 + (12/10 - 8/10) * u)) ∧
    (m.state = .CHASING →
      m.getNextBetAmount u =
        m.baseAmount * m.targetEscalation * (9/10 + (11/10 - 9/10) * u)) ∧
    (m.state = .ESCALATING →
      m.getNextBetAmount u =
        m.baseAmount *
          min (m.targetEscalation ^ m.consecutiveLosses)
            MAX_BET_ESCALATION_MULTIPLIER) ∧
    (((BettingStateMachine.init base escArg 1 pct).processOutcome .loss u1).processOutcome
        .loss u2).state = .ESCALATING ∧
    (((BettingStateMachine.init base escArg 1 pct).processOutcome .loss u1).processOutcome
        .loss u2).consecutiveLosses = 2 ∧
    (((BettingStateMachine.init base escArg 1 pct).processOutcome .loss u1).processOutcome
        .loss u2).getNextBetAmount u3 =
      base *
        min ((BettingStateMachine.init base escArg 1 pct).targetEscalation ^ 2)
          MAX_BET_ESCALATION_MULTIPLIER := by
  have hchase : (BettingStateMachine.init base escArg 1 pct).chaseProbability = 1 := by
    simp [BettingStateMachine.init, npClip]
  have h1 : (BettingStateMachine.init base escArg 1 pct).processOutcome .loss u1 =
      { BettingStateMachine.init base escArg 1 pct with
          state := .CHASING, consecutiveLosses := 1 } := by
    refine (processOutcome_spec _ u1).1 ?_ rfl
    rw [hchase]; exact hu1lt
  have h2 : (((BettingStateMachine.init base escArg 1 pct).processOutcome .loss
      u1).processOutcome .loss u2) =
      { BettingStateMachine.init base escArg 1 pct with
          state := .ESCALATING
          consecutiveLosses := 2
          currentLateNightPct :=
            min ((BettingStateMachine.init base escArg 1 pct).lateNightBaseline *
              (1 + (2 : ℚ) * (1/2))) (7/10) } := by
    rw [h1]
    simp only [BettingStateMachine.processOutcome]
    rw [if_pos (by simpa [hchase] using hu2lt)]
    norm_num
  refine ⟨?_, ?_, ?_, ?_, ?_, ?_⟩
  · intro hs; simp [BettingStateMachine.getNextBetAmount, hs]
  · intro hs; simp [BettingStateMachine.getNextBetAmount, hs]
  · intro hs; simp [BettingStateMachine.getNextBetAmount, hs]
  · rw [h2]
  · rw [h2]
  · rw [h2]; simp [BettingStateMachine.getNextBetAmount, BettingStateMachine.init]

/-- Closed instance of `getNextBetAmount_spec`: base 20, escalation target 3,
draws `u1 = u2 = 0`; the post-double-loss amount is `20 * min(9, 5) = 100`. -/
theorem getNextBetAmount_spec_witness :
    (((BettingStateMachine.init 20 3 1 (1/10)).processOutcome .loss 0).processOutcome
        .loss 0).getNextBetAmount 0 =
      20 * min ((BettingStateMachine.init 20 3 1 (1/10)).targetEscalation ^ 2)
        MAX_BET_ESCALATION_MULTIPLIER :=
  (getNextBetAmount_spec (BettingStateMachine.init 20 3 1 (1/10)) 20 3 (1/10) 0 0 0 0
    le_rfl (by norm_num) le_rfl (by norm_num)).2.2.2.2.2

/-- Embeds `config.BEHAVIOR_RANGES['critical']['late_night_pct'] = (0.60, 0.75)`. -/
def CRITICAL_LATE_NIGHT_RANGE : ℚ × ℚ := (60/100, 75/100)

/-- Counterexample to claim C9: `__init__` stores the raw, unclipped
`late_night_pct` argument into `current_late_night_pct`, so a critical-cohort
entity whose sampled baseline fraction is 0.75 (attainable, since the
critical `late_night_pct` range is `(0.60, 0.75)`) starts with a current
late-night fraction of 0.75 > 0.70 before its first event. -/
theorem currentLateNight_init_counterexample :
    sample_from_range CRITICAL_LATE_NIGHT_RANGE.1 CRITICAL_LATE_NIGHT_RANGE.2 1 =
      3/4 ∧
    (BettingStateMachine.init 100 4 (96/100) (3/4)).currentLateNightPct = 3/4 ∧
    ¬ (BettingStateMachine.init 100 4 (96/100) (3/4)).currentLateNightPct ≤ 7/10 := by
  refine ⟨by norm_num [sample_from_range, CRITICAL_LATE_NIGHT_RANGE], rfl, ?_⟩
  norm_num [BettingStateMachine.init]

/-- Claim C9 (amended): the baseline fraction is clipped to `[0, 0.7]` at
creation and every fraction `process_outcome` writes (the escalation raise
and the win restore) lies in `[0, 0.70]`, so the fraction stays in
`[0, 0.70]` once it is there; but `__init__` sets the current fraction to
the raw, unclipped argument, so before the first updating outcome it can
exceed 0.70. -/
theorem currentLateNight_invariant_amended (base escArg chaseArg pct u : ℚ)
    (m : BettingStateMachine) (o : Outcome)
    (hb0 : 0 ≤ m.lateNightBaseline) (hb1 : m.lateNightBaseline ≤ 7/10)
    (hc0 : 0 ≤ m.currentLateNightPct) (hc1 : m.currentLateNightPct ≤ 7/10) :
    ((BettingStateMachine.init base escArg chaseArg pct).lateNightBaseline =
        npClip pct 0 (7/10) ∧
      0 ≤ (BettingStateMachine.init base escArg chaseArg pct).lateNightBaseline ∧
      (BettingStateMachine.init base escArg chaseArg pct).lateNightBaseline ≤ 7/10) ∧
    (BettingStateMachine.init base escArg chaseArg pct).currentLateNightPct = pct ∧
    (0 ≤ (m.processOutcome o u).currentLateNightPct ∧
      (m.processOutcome o u).currentLateNightPct ≤ 7/10) ∧
    (m.processOutcome .win u).currentLateNightPct = m.lateNightBaseline := by
  refine ⟨⟨rfl, ?_, ?_⟩, rfl, ?_, rfl⟩
  · simp only [BettingStateMachine.init, npClip]
    exact le_min (le_max_right _ _) (by norm_num)
  · simp only [BettingStateMachine.init, npClip]
    exact min_le_right _ _
  · cases o with
    | win => exact ⟨hb0, hb1⟩
    | loss =>
        simp only [BettingStateMachine.processOutcome]
        split
        · split
          · exact ⟨hc0, hc1⟩
          · split
            · refine ⟨le_min (mul_nonneg hb0 (by positivity)) (by norm_num),
                min_le_right _ _⟩
            · exact ⟨hc0, hc1⟩
        · exact ⟨hc0, hc1⟩

/-- Closed instance of `currentLateNight_invariant_amended` at a machine with
baseline and current fraction 1/2, processing a loss with draw 0. -/
theorem currentLateNight_invariant_amended_witness :
    0 ≤ ((BettingStateMachine.init 10 2 1 (1/2)).processOutcome .loss 0).currentLateNightPct ∧
    ((BettingStateMachine.init 10 2 1 (1/2)).processOutcome .loss 0).currentLateNightPct ≤
      7/10 :=
  (currentLateNight_invariant_amended 10 2 1 (1/2) 0
    (BettingStateMachine.init 10 2 1 (1/2)) .loss
    (by norm_num [BettingStateMachine.init, npClip])
    (by norm_num [BettingStateMachine.init, npClip])
    (by norm_num [BettingStateMachine.init])
    (by norm_num [BettingStateMachine.init])).2.2.1

/-- The random draws consumed by one call of
`bet_generator.generate_bet_timestamp`:
`daysIncrement` is the exponential inter-event gap in days
(`np.random.exponential`, nonnegative), `uLate` the unit draw of the
late-night test, `lateHour` the draw of `np.random.randint(2, 6)`,
`normalHour` the value of `int(np.random.normal(20, 3))` before clipping,
`minute`/`second` the draws of `np.random.randint(0, 60)`. -/
structure TimestampDraws where
  daysIncrement : ℚ
  uLate : ℚ
  lateHour : ℤ
  normalHour : ℤ
  minute : ℤ
  second : ℤ
deriving DecidableEq, Repr

/-- Ranges the numpy draws of `generate_bet_timestamp` are guaranteed to lie
in: the exponential gap is nonnegative, `randint(2, 6) ∈ {2, ..., 5}` and
`randint(0, 60) ∈ {0, ..., 59}`. -/
def TimestampDraws.wf (d : TimestampDraws) : Prop :=
  0 ≤ d.daysIncrement ∧ 2 ≤ d.lateHour ∧ d.lateHour < 6 ∧
    0 ≤ d.minute ∧ d.minute < 60 ∧ 0 ≤ d.second ∧ d.second < 60

instance (d : TimestampDraws) : Decidable d.wf := by
  unfold TimestampDraws.wf; infer_instance

/-- Calendar day index of a timestamp (seconds, rational). -/
def dayFloor (t : ℚ) : ℤ := ⌊t / 86400⌋

/-- Embeds `generate_bet_timestamp` up to (and excluding) the final
monotonicity repair: `new_date = current_date + timedelta(days=incr)`
clamped to `end_date`, then `new_date.replace(hour=h, minute=m, second=s)`
where the hour is the late-night draw with probability `late_night_pct` and
the clipped primetime draw `max(6, min(23, h))` otherwise. -/
def rawBetTimestamp (currentDate endDate lateNightPct : ℚ) (d : TimestampDraws) : ℚ :=
  let newDate := min (currentDate + 86400 * d.daysIncrement) endDate
  let hour : ℤ :=
    if d.uLate < lateNightPct then d.lateHour else max 6 (min 23 d.normalHour)
  (dayFloor newDate : ℚ) * 86400 + hour * 3600 + d.minute * 60 + d.second

/-- Embeds `bet_generator.generate_bet_timestamp`: the raw replaced
timestamp followed by the monotonicity repair
`if timestamp < current_date: timestamp += 1 day; clamp to end_date`. -/
def generate_bet_timestamp (currentDate endDate lateNightPct : ℚ)
    (d : TimestampDraws) : ℚ :=
  let ts := rawBetTimestamp currentDate endDate lateNightPct d
  if ts < currentDate then min (ts + 86400) endDate else ts

/-- One step of the per-player loop of `generate_bets_for_single_player`
stays inside `[current_date, end]` whenever the window end falls on a
23:59:59 boundary (as the `end` built from `END_DATE + 1 day - 1 second`
does). -/
theorem generate_bet_timestamp_bounds (currentDate endDate lateNightPct : ℚ)
    (d : TimestampDraws) (hd : d.wf) (hce : currentDate ≤ endDate)
    (he : ∃ e : ℤ, endDate = 86400 * e + 86399) :
    currentDate ≤ generate_bet_timestamp currentDate endDate lateNightPct d ∧
      generate_bet_timestamp currentDate endDate lateNightPct d ≤ endDate := by
  obtain ⟨hinc, hlh2, hlh6, hm0, hm60, hs0, hs60⟩ := hd
  obtain ⟨e, he⟩ := he
  set hour : ℤ :=
    if d.uLate < lateNightPct then d.lateHour else max 6 (min 23 d.normalHour) with hhour
  have hhour0 : 0 ≤ hour := by
    rw [hhour]; split
    · omega
    · exact le_trans (by norm_num) (le_max_left _ _)
  have hhour23 : hour ≤ 23 := by
    rw [hhour]; split
    · omega
    · exact max_le (by norm_num) (min_le_left _ _)
  set newDate := min (currentDate + 86400 * d.daysIncrement) endDate with hnew
  have hnd_ge : currentDate ≤ newDate := by
    refine le_min ?_ hce
    nlinarith
  have hnd_le : newDate ≤ endDate := min_le_right _ _
  have hfloor_le : (dayFloor newDate : ℚ) * 86400 ≤ newDate := by
    have := Int.floor_le (newDate / 86400)
    have h86400 : (0:ℚ) < 86400 := by norm_num
    calc (dayFloor newDate : ℚ) * 86400 = (⌊newDate / 86400⌋ : ℚ) * 86400 := rfl
      _ ≤ (newDate / 86400) * 86400 := by
          exact mul_le_mul_of_nonneg_right this (by norm_num)
      _ = newDate := by field_simp
  have hfloor_gt : newDate < ((dayFloor newDate : ℚ) + 1) * 86400 := by
    have := Int.lt_floor_add_one (newDate / 86400)
    have : newDate / 86400 < (dayFloor newDate : ℚ) + 1 := this
    nlinarith
  have hday_le : dayFloor newDate ≤ e := by
    have h1 : newDate / 86400 ≤ endDate / 86400 := by
      apply div_le_div_of_nonneg_right hnd_le  -- placeholder, fixed below if needed
      norm_num
    have h2 : dayFloor endDate = e := by
      unfold dayFloor
      rw [he]
      rw [show (86400 * (e:ℚ) + 86399) / 86400 = (e:ℚ) + 86399/86400 by ring]
      rw [Int.floor_eq_iff]
      constructor
      · push_cast; nlinarith
      · push_cast; nlinarith
    calc dayFloor newDate ≤ dayFloor endDate := Int.floor_le_floor h1
      _ = e := h2
  set time : ℚ := (hour : ℚ) * 3600 + d.minute * 60 + d.second with htime
  have htime0 : 0 ≤ time := by
    rw [htime]
    have h1 : (0:ℚ) ≤ (hour : ℚ) := by exact_mod_cast hhour0
    have h2 : (0:ℚ) ≤ (d.minute : ℚ) := by exact_mod_cast hm0
    have h3 : (0:ℚ) ≤ (d.second : ℚ) := by exact_mod_cast hs0
    nlinarith
  have htime_le : time ≤ 86399 := by
    rw [htime]
    have h1 : (hour : ℚ) ≤ 23 := by exact_mod_cast hhour23
    have h2 : (d.minute : ℚ) ≤ 59 := by exact_mod_cast (by omega : d.minute ≤ 59)
    have h3 : (d.second : ℚ) ≤ 59 := by exact_mod_cast (by omega : d.second ≤ 59)
    nlinarith
  have hrawts : rawBetTimestamp currentDate endDate lateNightPct d =
      (dayFloor newDate : ℚ) * 86400 + time := by
    rw [rawBetTimestamp, htime, hhour, hnew]; ring
  have hts_le : rawBetTimestamp currentDate endDate lateNightPct d ≤ endDate := by
    rw [hrawts, he]
    have : ((dayFloor newDate : ℚ)) * 86400 ≤ (e : ℚ) * 86400 := by
      have : ((dayFloor newDate : ℚ)) ≤ (e : ℚ) := by exact_mod_cast hday_le
      nlinarith
    nlinarith
  rw [generate_bet_timestamp]
  split
  · rename_i hlt
    constructor
    · refine le_min ?_ hce
      have : currentDate < ((dayFloor newDate : ℚ) + 1) * 86400 :=
        lt_of_le_of_lt hnd_ge hfloor_gt
      rw [hrawts]
      nlinarith
    · exact min_le_right _ _
  · rename_i hge
    exact ⟨le_of_not_lt hge, hts_le⟩

/-- Simulation window start (`START_DATE = '2026-01-01'`), as seconds from
itself. -/
def simulationStart : ℚ := 0

/-- Simulation window end: `strptime(END_DATE) + 1 day - 1 second` with
`END_DATE = '2026-03-31'`, i.e. 23:59:59 of the 90th day of the window. -/
def simulationEnd : ℚ := 90 * 86400 - 1

/-- The timestamp part of the per-player loop of
`generate_bets_for_single_player`: the loop breaks when
`current_date >= end`, otherwise emits
`generate_bet_timestamp(current_date, end, pct, draws)` and sets
`current_date = timestamp`.  Each step carries the machine's
`current_late_night_pct` at that bet (first component) and the six random
draws (second component). -/
def generateBetTimestampSeq (currentDate endDate : ℚ) :
    List (ℚ × TimestampDraws) → List ℚ
  | [] => []
  | step :: rest =>
      if endDate ≤ currentDate then []
      else
        let ts := generate_bet_timestamp currentDate endDate step.1 step.2
        ts :: generateBetTimestampSeq ts endDate rest

/-- Induction form of claim C4: from any current date inside the window, the
emitted timestamps are bounded by `[currentDate, endDate]` and sorted. -/
theorem generateBetTimestampSeq_bounds (endDate : ℚ)
    (he : ∃ e : ℤ, endDate = 86400 * e + 86399) :
    ∀ (steps : List (ℚ × TimestampDraws)) (currentDate : ℚ),
      currentDate ≤ endDate → (∀ s ∈ steps, s.2.wf) →
      (∀ t ∈ generateBetTimestampSeq currentDate endDate steps,
        currentDate ≤ t ∧ t ≤ endDate) ∧
      List.Sorted (· ≤ ·) (generateBetTimestampSeq currentDate endDate steps) := by
  intro steps
  induction steps with
  | nil => intro c _ _; simp [generateBetTimestampSeq]
  | cons step rest ih =>
      intro c hc hwf
      rw [generateBetTimestampSeq]
      split
      · simp
      · set ts := generate_bet_timestamp c endDate step.1 step.2 with hts
        have hstep : c ≤ ts ∧ ts ≤ endDate :=
          generate_bet_timestamp_bounds c endDate step.1 step.2
            (hwf step (by simp)) hc he
        have hrest := ih ts hstep.2 (fun s hs => hwf s (by simp [hs]))
        constructor
        · intro t ht
          rcases List.mem_cons.mp ht with h | h
          · exact ⟨h ▸ hstep.1, h ▸ hstep.2⟩
          · exact ⟨le_trans hstep.1 (hrest.1 t h).1, (hrest.1 t h).2⟩
        · rw [List.sorted_cons]
          exact ⟨fun t ht => (hrest.1 t ht).1, hrest.2⟩

/-- Claim C4: for every entity, the timestamp sequence emitted by the
per-entity loop is non-decreasing and every timestamp lies inside
`[window_start, window_end]`; moreover, whenever the freshly sampled
timestamp would precede the prior one, the emitted value is that timestamp
advanced by one day and clamped to the window end. -/
theorem bet_timestamps_monotone_in_window (steps : List (ℚ × TimestampDraws))
    (hwf : ∀ s ∈ steps, s.2.wf) :
    (∀ t ∈ generateBetTimestampSeq simulationStart simulationEnd steps,
      simulationStart ≤ t ∧ t ≤ simulationEnd) ∧
    List.Sorted (· ≤ ·)
      (generateBetTimestampSeq simulationStart simulationEnd steps) ∧
    (∀ currentDate lateNightPct d,
      rawBetTimestamp currentDate simulationEnd lateNightPct d < currentDate →
      generate_bet_timestamp currentDate simulationEnd lateNightPct d =
        min (rawBetTimestamp currentDate simulationEnd lateNightPct d + 86400)
          simulationEnd) := by
  have he : ∃ e : ℤ, simulationEnd = 86400 * e + 86399 :=
    ⟨89, by norm_num [simulationEnd]⟩
  have hse : simulationStart ≤ simulationEnd := by
    norm_num [simulationStart, simulationEnd]
  obtain ⟨h1, h2⟩ := generateBetTimestampSeq_bounds simulationEnd he steps
    simulationStart hse hwf
  refine ⟨h1, h2, ?_⟩
  intro currentDate lateNightPct d hlt
  rw [generate_bet_timestamp, if_pos hlt]

/-- Closed instance of `bet_timestamps_monotone_in_window` on a two-bet draw
list. -/
theorem bet_timestamps_monotone_in_window_witness :
    List.Sorted (· ≤ ·) (generateBetTimestampSeq simulationStart simulationEnd
      [(1/10, ⟨3/2, 0, 2, 20, 30, 0⟩), (1/2, ⟨0, 1, 3, 25, 0, 59⟩)]) :=
  (bet_timestamps_monotone_in_window
    [(1/10, ⟨3/2, 0, 2, 20, 30, 0⟩), (1/2, ⟨0, 1, 3, 25, 0, 59⟩)]
    (by intro s hs
        simp only [List.mem_cons, List.mem_singleton] at hs
        rcases hs with h | h | h
        · rw [h]; refine ⟨by norm_num, by norm_num, by norm_num, by norm_num,
            by norm_num, by norm_num, by norm_num⟩
        · rw [h]; refine ⟨by norm_num, by norm_num, by norm_num, by norm_num,
            by norm_num, by norm_num, by norm_num⟩
        · cases h)).2.1

/-- The eight sport categories of `config.SPORT_DISTRIBUTION_BASELINE`. -/
inductive Sport
  | NFL
  | NBA
  | MLB
  | NHL
  | SOCCER
  | MMA
  | TENNIS
  | TABLE_TENNIS
deriving DecidableEq, Repr

/-- The key order of the `SPORT_DISTRIBUTION_BASELINE` dictionary. -/
def allSports : List Sport :=
  [.NFL, .NBA, .MLB, .NHL, .SOCCER, .MMA, .TENNIS, .TABLE_TENNIS]

/-- Embeds `config.SPORT_DISTRIBUTION_BASELINE`. -/
def SPORT_DISTRIBUTION_BASELINE : Sport → ℚ
  | .NFL => 40/100
  | .NBA => 25/100
  | .MLB => 15/100
  | .NHL => 8/100
  | .SOCCER => 6/100
  | .MMA => 3/100
  | .TENNIS => 2/100
  | .TABLE_TENNIS => 1/100

/-- The four risk cohorts of `config.COHORT_DISTRIBUTION`. -/
inductive Cohort
  | low_risk
  | medium_risk
  | high_risk
  | critical
deriving DecidableEq, Repr

/-- Embeds the `niche_boost` computation of
`bet_generator.select_sport_with_drift`, parameterized by the cohort drift
factor `driftFactor = progress_pct ** e` (`e = 1.5` for `medium_risk`, `2`
for `high_risk`, `2.2` for `critical`; for `progress_pct ∈ [0, 1]` the
drift factor ranges over `[0, 1]`):
`medium_risk → driftFactor * 0.12`, `high_risk → driftFactor * 0.35`,
`critical → driftFactor * 0.50`, otherwise `0.0`. -/
def nicheBoost (c : Cohort) (driftFactor : ℚ) : ℚ :=
  match c with
  | .medium_risk => driftFactor * (12/100)
  | .high_risk => driftFactor * (35/100)
  | .critical => driftFactor * (50/100)
  | .low_risk => 0

/-- Embeds the in-place dictionary updates of `select_sport_with_drift`
(`dist['TABLE_TENNIS'] += niche_boost * 0.50`, ..., `dist['MLB'] -=
niche_boost * 0.30`): the shift each sport's baseline weight receives. -/
def boostDelta (nb : ℚ) : Sport → ℚ
  | .TABLE_TENNIS => nb * (50/100)
  | .MMA => nb * (25/100)
  | .TENNIS => nb * (25/100)
  | .NFL => -(nb * (40/100))
  | .NBA => -(nb * (30/100))
  | .MLB => -(nb * (30/100))
  | _ => 0

/-- The boosted (pre-clipping) weight of a sport. -/
def boostedSportWeight (nb : ℚ) (s : Sport) : ℚ :=
  SPORT_DISTRIBUTION_BASELINE s + boostDelta nb s

/-- Embeds `dist = {k: max(0, v) for k, v in dist.items()}`. -/
def clippedSportWeight (nb : ℚ) (s : Sport) : ℚ := max 0 (boostedSportWeight nb s)

/-- Embeds `total = sum(dist.values())` after clipping. -/
def sportWeightTotal (nb : ℚ) : ℚ := (allSports.map (clippedSportWeight nb)).sum

/-- Embeds the categorical distribution `select_sport_with_drift` passes to
`np.random.choice(sports, p=probs)`: boosted, clipped and renormalized when
`niche_boost > 0`, the baseline otherwise.  (The flat exploration branch for
high/critical cohorts late in the window returns early with an unweighted
uniform choice and never reaches this distribution.) -/
def driftedSportDist (c : Cohort) (driftFactor : ℚ) (s : Sport) : ℚ :=
  let nb := nicheBoost c driftFactor
  if 0 < nb then clippedSportWeight nb s / sportWeightTotal nb
  else SPORT_DISTRIBUTION_BASELINE s

/-- Auxiliary: dividing every list element by `t` divides the sum by `t`. -/
theorem list_sum_div (l : List ℚ) (t : ℚ) :
    (l.map (· / t)).sum = l.sum / t := by
  induction l with
  | nil => simp
  | cons a l ih => simp [ih, add_div]

/-- Auxiliary: the clipped, boosted total is positive whenever the niche
boost is. -/
theorem sportWeightTotal_pos (nb : ℚ) (hnb : 0 < nb) : 0 < sportWeightTotal nb := by
  have htt : (1/100 : ℚ) + nb * (50/100) ≤
      clippedSportWeight nb .TABLE_TENNIS := by
    simp only [clippedSportWeight, boostedSportWeight, SPORT_DISTRIBUTION_BASELINE,
      boostDelta]
    exact le_max_right _ _
  have h0 : ∀ s, (0:ℚ) ≤ clippedSportWeight nb s := fun s => le_max_left _ _
  simp only [sportWeightTotal, allSports, List.map_cons, List.map_nil, List.sum_cons,
    List.sum_nil]
  have h1 := h0 Sport.NFL
  have h2 := h0 Sport.NBA
  have h3 := h0 Sport.MLB
  have h4 := h0 Sport.NHL
  have h5 := h0 Sport.SOCCER
  have h6 := h0 Sport.MMA
  have h7 := h0 Sport.TENNIS
  nlinarith

/-- Claim C10: for every cohort and drift factor in `[0, 1]` (the range of
`progress_pct ** exponent` over progress fractions in `[0, 1]`), the
category distribution handed to `np.random.choice` is nonnegative
everywhere and sums to 1. -/
theorem driftedSportDist_valid (c : Cohort) (driftFactor : ℚ)
    (hd0 : 0 ≤ driftFactor) (hd1 : driftFactor ≤ 1) :
    (∀ s, 0 ≤ driftedSportDist c driftFactor s) ∧
    (allSports.map (driftedSportDist c driftFactor)).sum = 1 := by
  set nb := nicheBoost c driftFactor with hnb
  by_cases hpos : 0 < nb
  · have htot := sportWeightTotal_pos nb hpos
    constructor
    · intro s
      simp only [driftedSportDist, ← hnb, if_pos hpos]
      exact div_nonneg (le_max_left _ _) (le_of_lt htot)
    · have hmap : (allSports.map (driftedSportDist c driftFactor)) =
          ((allSports.map (clippedSportWeight nb)).map (· / sportWeightTotal nb)) := by
        rw [List.map_map]
        refine List.map_congr_left fun s _ => ?_
        simp only [driftedSportDist, ← hnb, if_pos hpos, Function.comp_apply]
      rw [hmap, list_sum_div]
      exact div_self (ne_of_gt htot)
  · constructor
    · intro s
      simp only [driftedSportDist, ← hnb, if_neg hpos]
      cases s <;> norm_num [SPORT_DISTRIBUTION_BASELINE]
    · have hmap : (allSports.map (driftedSportDist c driftFactor)) =
          allSports.map SPORT_DISTRIBUTION_BASELINE := by
        refine List.map_congr_left fun s _ => ?_
        simp only [driftedSportDist, ← hnb, if_neg hpos]
      rw [hmap]
      norm_num [allSports, SPORT_DISTRIBUTION_BASELINE]

/-- Closed instance of `driftedSportDist_valid`: the critical cohort at the
window end (drift factor `1 ** 2.2 = 1`). -/
theorem driftedSportDist_valid_witness :
    (∀ s, 0 ≤ driftedSportDist .critical 1 s) ∧
    (allSports.map (driftedSportDist .critical 1)).sum = 1 :=
  driftedSportDist_valid .critical 1 (by norm_num) (by norm_num)

/-- Embeds `edge_cases.inject_edge_cases`: the players and bets tables are
returned unchanged and the assessment table is filtered by
`gamalyze_df['player_id'] != 'PLR_0333_NJ'`.  Rows of the three tables are
kept generic (`α`, `β`, `γ` with an entity-identifier accessor `pid` for
the assessment rows), mirroring the DataFrame-generic source. -/
def inject_edge_cases {α β γ : Type} (pid : γ → String)
    (players : List α) (bets : List β) (gamalyze : List γ) :
    List α × List β × List γ :=
  (players, bets, gamalyze.filter (fun g => pid g != "PLR_0333_NJ"))

/-- Claim C8: the edge-case injector returns the population and event tables
exactly equal to its inputs (so the population count is preserved and
nothing is appended), and returns the assessment table with exactly the
rows whose entity identifier is `PLR_0333_NJ` removed — an order-preserving
sublist of the input containing precisely the rows with a different
identifier. -/
theorem inject_edge_cases_spec {α β γ : Type} (pid : γ → String)
    (players : List α) (bets : List β) (gamalyze : List γ) :
    (inject_edge_cases pid players bets gamalyze).1 = players ∧
    (inject_edge_cases pid players bets gamalyze).2.1 = bets ∧
    (inject_edge_cases pid players bets gamalyze).2.2 =
      gamalyze.filter (fun g => pid g != "PLR_0333_NJ") ∧
    (∀ x, x ∈ (inject_edge_cases pid players bets gamalyze).2.2 ↔
      x ∈ gamalyze ∧ pid x ≠ "PLR_0333_NJ") ∧
    (inject_edge_cases pid players bets gamalyze).2.2.Sublist gamalyze ∧
    (inject_edge_cases pid players bets gamalyze).1.length = players.length := by
  refine ⟨rfl, rfl, rfl, ?_, ?_, rfl⟩
  · intro x
    simp [inject_edge_cases, List.mem_filter]
  · exact List.filter_sublist _

/-- Embeds `config.TOTAL_PLAYERS = 10000`. -/
def TOTAL_PLAYERS : ℕ := 10000

/-- Embeds `config.EXPECTED_GAMALYZE_SCORES = TOTAL_PLAYERS` (source
comment: `Edge case removal not yet implemented`). -/
def EXPECTED_GAMALYZE_SCORES : ℕ := TOTAL_PLAYERS

/-- Embeds the assessment-count tier of `validation.validate_all`:
`results['gamalyze_count'] = len(gamalyze_df) == EXPECTED_GAMALYZE_SCORES`. -/
def gamalyzeCountCheck (gamalyzeLen : ℕ) : Bool :=
  gamalyzeLen == EXPECTED_GAMALYZE_SCORES

/-- An assessment record as produced by
`gamalyze_generator.generate_gamalyze_scores`. -/
structure AssessmentRow where
  assessmentId : String
  playerId : String
  assessmentDate : String
  sensitivityToLoss : ℚ
  sensitivityToReward : ℚ
  riskTolerance : ℚ
  decisionConsistency : ℚ
  gamalyzeVersion : String
deriving DecidableEq, Repr

/-- A generic assessment row for a player other than the missing-assessment
edge case. -/
def ordinaryAssessmentRow : AssessmentRow :=
  ⟨"ASSESS_PLR_0001_MA", "PLR_0001_MA", "2025-11-20", 30, 40, 35, 70, "v3.2.1"⟩

/-- The assessment row of the missing-assessment edge-case player. -/
def removedAssessmentRow : AssessmentRow :=
  ⟨"ASSESS_PLR_0333_NJ", "PLR_0333_NJ", "2025-12-04", 50, 55, 55, 50, "v3.2.1"⟩

/-- A 10,000-row assessment table containing exactly one row for
`PLR_0333_NJ`, as the generator produces for a 10,000-player population in
which player index 332 was assigned state NJ. -/
def demoAssessmentTable : List AssessmentRow :=
  List.replicate 9999 ordinaryAssessmentRow ++ [removedAssessmentRow]

/-- Auxiliary: filtering a replicated list keeps all or nothing. -/
theorem filter_replicate_list {α : Type} (n : ℕ) (a : α) (p : α → Bool) :
    (List.replicate n a).filter p = if p a then List.replicate n a else [] := by
  induction n with
  | zero => simp
  | succ n ih =>
      rw [List.replicate_succ, List.filter_cons, ih]
      by_cases h : p a
      · simp only [h, if_true, List.replicate_succ]
      · simp only [h, if_false, Bool.false_eq_true]

/-- Claim C7 (code bug): run on the pipeline's own output for a
10,000-entity population — a 10,000-row assessment table holding exactly
one row for `PLR_0333_NJ` — the edge-case injector removes that single row,
and the assessment-count check of `validate_all` then compares 9,999
against `EXPECTED_GAMALYZE_SCORES = 10000` and fails, although the claim
(and the spec) say it passes by accounting for the removal. -/
theorem gamalyze_count_check_fails :
    demoAssessmentTable.length = TOTAL_PLAYERS ∧
    (demoAssessmentTable.filter
      (fun g => g.playerId == "PLR_0333_NJ")).length = 1 ∧
    (inject_edge_cases AssessmentRow.playerId ([] : List Unit) ([] : List Unit)
      demoAssessmentTable).2.2.length = 9999 ∧
    gamalyzeCountCheck
      ((inject_edge_cases AssessmentRow.playerId ([] : List Unit) ([] : List Unit)
        demoAssessmentTable).2.2.length) = false := by
  have hne : (ordinaryAssessmentRow.playerId != "PLR_0333_NJ") = true := by decide
  have hne2 : (ordinaryAssessmentRow.playerId == "PLR_0333_NJ") = false := by decide
  have heq : (removedAssessmentRow.playerId != "PLR_0333_NJ") = false := by decide
  have heq2 : (removedAssessmentRow.playerId == "PLR_0333_NJ") = true := by decide
  have hfilter : demoAssessmentTable.filter
      (fun g => g.playerId != "PLR_0333_NJ") =
      List.replicate 9999 ordinaryAssessmentRow := by
    rw [demoAssessmentTable, List.filter_append, filter_replicate_list,
      if_pos hne, List.filter_cons, if_neg (by rw [heq]; exact Bool.false_ne_true),
      List.filter_nil, List.append_nil]
  refine ⟨?_, ?_, ?_, ?_⟩
  · rw [demoAssessmentTable, List.length_append, List.length_replicate]
    rfl
  · rw [demoAssessmentTable, List.filter_append, filter_replicate_list,
      if_neg (by rw [hne2]; exact Bool.false_ne_true), List.filter_cons,
      if_pos heq2, List.filter_nil]
    rfl
  · show (demoAssessmentTable.filter (fun g => g.playerId != "PLR_0333_NJ")).length =
      9999
    rw [hfilter, List.length_replicate]
  · show gamalyzeCountCheck
      ((demoAssessmentTable.filter (fun g => g.playerId != "PLR_0333_NJ")).length) =
      false
    rw [hfilter, List.length_replicate]
    rfl

/-- Embeds `config.GAMALYZE_MIN = 0`. -/
def GAMALYZE_MIN : ℚ := 0

/-- Embeds `config.GAMALYZE_MAX = 100`. -/
def GAMALYZE_MAX : ℚ := 100

/-- Embeds `config.GAMALYZE_NOISE_STD = 0.05` (source comment: `Noise factor
for adding variability to latent factors (5% noise)`). -/
def GAMALYZE_NOISE_STD : ℚ := 5/100

/-- Embeds `correlations.add_noise`: `values + np.random.normal(0,
noise_std)`, the Gaussian draw represented as `noiseStd * z` with `z` the
standard-normal unit draw.  The docstring calls `noise_std` a standard
deviation `relative to value scale`, but the implementation passes it to
`np.random.normal` as the absolute standard deviation. -/
def add_noise (value noiseStd z : ℚ) : ℚ := value + noiseStd * z

/-- Embeds `utils.clip_to_valid_range` (`np.clip(values, min_val,
max_val)`). -/
def clip_to_valid_range (x lo hi : ℚ) : ℚ := min (max x lo) hi

/-- The four scores returned by
`gamalyze_generator.transform_latent_to_gamalyze`. -/
structure GamalyzeScores where
  sensitivityToLoss : ℚ
  sensitivityToReward : ℚ
  riskTolerance : ℚ
  decisionConsistency : ℚ
deriving DecidableEq, Repr

/-- Embeds `transform_latent_to_gamalyze` for one entity: each directly
latent score is `clip(add_noise(latent, noise_std), 0, 100)` and
`sensitivity_to_reward = clip(0.6 * risk_tolerance + 0.4 * uniform(0, 100),
0, 100)`.  `zSens`, `zRisk`, `zCons` are the standard-normal draws of the
three `add_noise` calls and `uReward` the unit draw of
`np.random.uniform(GAMALYZE_MIN, GAMALYZE_MAX)`; `noiseStd` is the
`noise_std` argument, defaulted by the caller to `GAMALYZE_NOISE_STD`. -/
def transform_latent_to_gamalyze (latSens latRisk latCons : ℚ)
    (zSens zRisk zCons uReward : ℚ) (noiseStd : ℚ) : GamalyzeScores :=
  let sLoss := clip_to_valid_range (add_noise latSens noiseStd zSens)
    GAMALYZE_MIN GAMALYZE_MAX
  let rTol := clip_to_valid_range (add_noise latRisk noiseStd zRisk)
    GAMALYZE_MIN GAMALYZE_MAX
  let dCons := clip_to_valid_range (add_noise latCons noiseStd zCons)
    GAMALYZE_MIN GAMALYZE_MAX
  let sReward := clip_to_valid_range
    (6/10 * rTol + 4/10 * (GAMALYZE_MIN + (GAMALYZE_MAX - GAMALYZE_MIN) * uReward))
    GAMALYZE_MIN GAMALYZE_MAX
  ⟨sLoss, sReward, rTol, dCons⟩

/-- Claim C5 (code bug): the assessment generator does produce
`clip(latent + noise, 0, 100)` scores and the
`clip(0.6 * risk_tolerance + 0.4 * Uniform(0, 100), 0, 100)` reward score,
but the Gaussian noise is drawn with `np.random.normal(0, 0.05)` — an
absolute standard deviation of 0.05, not the 5% of the 0–100 scale (= 5)
that the claim states: at latent value 50 with a unit standard-normal draw
the code yields 50.05 where the claimed formula yields 55. -/
theorem gamalyze_noise_std_bug :
    (∀ latSens latRisk latCons zSens zRisk zCons uReward s : ℚ,
      (transform_latent_to_gamalyze latSens latRisk latCons zSens zRisk zCons
        uReward s).sensitivityToLoss =
        clip_to_valid_range (latSens + s * zSens) 0 100 ∧
      (transform_latent_to_gamalyze latSens latRisk latCons zSens zRisk zCons
        uReward s).sensitivityToReward =
        clip_to_valid_range
          (6/10 * clip_to_valid_range (latRisk + s * zRisk) 0 100 +
            4/10 * (100 * uReward)) 0 100) ∧
    GAMALYZE_NOISE_STD = 5/100 ∧
    (5/100 : ℚ) * (GAMALYZE_MAX - GAMALYZE_MIN) = 5 ∧
    GAMALYZE_NOISE_STD ≠ 5 ∧
    (transform_latent_to_gamalyze 50 50 50 1 0 0 0
      GAMALYZE_NOISE_STD).sensitivityToLoss = 50 + 5/100 ∧
    (transform_latent_to_gamalyze 50 50 50 1 0 0 0
      GAMALYZE_NOISE_STD).sensitivityToLoss ≠
      clip_to_valid_range (50 + 5 * 1) GAMALYZE_MIN GAMALYZE_MAX := by
  refine ⟨?_, rfl, ?_, ?_, ?_, ?_⟩
  · intro latSens latRisk latCons zSens zRisk zCons uReward s
    constructor
    · simp [transform_latent_to_gamalyze, add_noise, GAMALYZE_MIN, GAMALYZE_MAX]
    · simp [transform_latent_to_gamalyze, add_noise, GAMALYZE_MIN, GAMALYZE_MAX]
  · norm_num [GAMALYZE_MAX, GAMALYZE_MIN]
  · norm_num [GAMALYZE_NOISE_STD]
  · norm_num [transform_latent_to_gamalyze, add_noise, clip_to_valid_range,
      GAMALYZE_NOISE_STD, GAMALYZE_MIN, GAMALYZE_MAX]
  · norm_num [transform_latent_to_gamalyze, add_noise, clip_to_valid_range,
      GAMALYZE_NOISE_STD, GAMALYZE_MIN, GAMALYZE_MAX]

/-- Embeds scalar `np.allclose` (default tolerances `rtol = 1e-5`,
`atol = 1e-8`): `|a - b| ≤ atol + rtol * |b|`. -/
def allcloseQ (a b : ℚ) : Bool := |a - b| ≤ 1/100000000 + (1/100000) * |b|

/-- Entry `(i, j)` of a list-of-rows matrix. -/
def matEntry (m : List (List ℚ)) (i j : ℕ) : ℚ := (m.getD i []).getD j 0

/-- Embeds `np.allclose(correlation_matrix, correlation_matrix.T)` for a
square matrix: every entry is allclose to its transpose entry. -/
def matSymCheck (m : List (List ℚ)) : Bool :=
  (List.range m.length).all fun i =>
    (List.range m.length).all fun j => allcloseQ (matEntry m i j) (matEntry m j i)

/-- Embeds `cov_matrix = D @ correlation_matrix @ D` with `D = np.diag(stds)`:
entry `(i, j)` is `stds[i] * corr[i][j] * stds[j]`. -/
def covMatrix (corr : List (List ℚ)) (stds : List ℚ) : List (List ℚ) :=
  (List.range corr.length).map fun i =>
    (List.range corr.length).map fun j =>
      stds.getD i 0 * matEntry corr i j * stds.getD j 0

/-- Row with column `j` removed (for Laplace expansion). -/
def dropCol (j : ℕ) (row : List ℚ) : List ℚ := row.take j ++ row.drop (j + 1)

/-- Fuel-driven determinant by Laplace expansion along the first row. -/
def detQAux : ℕ → List (List ℚ) → ℚ
  | _, [] => 1
  | 0, _ :: _ => 0
  | fuel + 1, row :: rest =>
      ((List.range row.length).map fun j =>
        (-1 : ℚ) ^ j * row.getD j 0 * detQAux fuel (rest.map (dropCol j))).sum

/-- Determinant of a list-of-rows matrix. -/
def detQ (m : List (List ℚ)) : ℚ := detQAux m.length m

/-- Leading principal `k × k` submatrix. -/
def leadingMinor (m : List (List ℚ)) (k : ℕ) : List (List ℚ) :=
  (m.take k).map (fun row => row.take k)

/-- Auxiliary evaluation rule: `1 × 1` determinant. -/
theorem detQAux_one (a : ℚ) : detQAux 1 [[a]] = a := by
  norm_num [detQAux, List.range_succ]

/-- Auxiliary evaluation rule: `2 × 2` determinant. -/
theorem detQAux_two (a b c d : ℚ) :
    detQAux 2 [[a, b], [c, d]] = a * d - b * c := by
  norm_num [detQAux, dropCol, List.range_succ]
  ring

/-- Auxiliary evaluation rule: `3 × 3` determinant. -/
theorem detQAux_three (a b c d e f g h i : ℚ) :
    detQAux 3 [[a, b, c], [d, e, f], [g, h, i]] =
      a * (e * i - f * h) - b * (d * i - f * g) + c * (d * h - e * g) := by
  have h3 : (3 : ℕ) = 2 + 1 := rfl
  rw [h3, detQAux]
  simp only [List.length_cons, List.length_nil, List.range_succ, List.range_zero,
    List.map_nil, List.map_append, List.map_cons, List.sum_append, List.sum_cons,
    List.sum_nil, dropCol, List.take_succ_cons, List.take_zero, List.drop_succ_cons,
    List.drop_zero, List.nil_append, List.cons_append, List.take_nil, List.drop_nil]
  norm_num [detQAux_two]
  ring

/-- Auxiliary evaluation rule: `4 × 4` determinant. -/
theorem detQAux_four (a b c d e f g h i j k l m n o p : ℚ) :
    detQAux 4 [[a, b, c, d], [e, f, g, h], [i, j, k, l], [m, n, o, p]] =
      a * (f * (k * p - l * o) - g * (j * p - l * n) + h * (j * o - k * n)) -
      b * (e * (k * p - l * o) - g * (i * p - l * m) + h * (i * o - k * m)) +
      c * (e * (j * p - l * n) - f * (i * p - l * m) + h * (i * n - j * m)) -
      d * (e * (j * o - k * n) - f * (i * o - k * m) + g * (i * n - j * m)) := by
  have h4 : (4 : ℕ) = 3 + 1 := rfl
  rw [h4, detQAux]
  simp only [List.length_cons, List.length_nil, List.range_succ, List.range_zero,
    List.map_nil, List.map_append, List.map_cons, List.sum_append, List.sum_cons,
    List.sum_nil, dropCol, List.take_succ_cons, List.take_zero, List.drop_succ_cons,
    List.drop_zero, List.nil_append, List.cons_append, List.take_nil, List.drop_nil]
  norm_num [detQAux_three]
  ring

/-- Decides whether a symmetric matrix is positive definite, by Sylvester's
criterion (all leading principal minors positive).  This is exactly the
condition under which `np.linalg.cholesky` succeeds on a symmetric matrix
(it raises `LinAlgError` otherwise). -/
def posDefCheck (m : List (List ℚ)) : Bool :=
  (List.range m.length).all fun k => decide (0 < detQ (leadingMinor m (k + 1)))

/-- The exceptions `correlations.generate_correlated_variables` raises; every
one of them is a Python `ValueError` (the repository defines no
`ConfigurationError` anywhere). -/
inductive GenError
  | notSymmetric
  | dimMismatchMeans
  | dimMismatchStds
  | notPositiveDefinite
deriving DecidableEq, Repr

/-- Embeds the validation performed by
`correlations.generate_correlated_variables` before it draws samples: the
`np.allclose(M, M.T)` symmetry check, the two dimension checks against
`means` and `stds`, and the `np.linalg.cholesky(cov_matrix)` call whose
`LinAlgError` is re-raised as a `ValueError` when `Σ = D·R·D` is not
positive definite.  (The sampling transform `Z @ L.T + means` that follows
on success is pure linear algebra on the draws and raises nothing.) -/
def generate_correlated_variables_check (corr : List (List ℚ))
    (means stds : List ℚ) : Except GenError Unit :=
  if ¬ matSymCheck corr then .error .notSymmetric
  else if corr.length ≠ means.length then .error .dimMismatchMeans
  else if corr.length ≠ stds.length then .error .dimMismatchStds
  else if ¬ posDefCheck (covMatrix corr stds) then .error .notPositiveDefinite
  else .ok ()

/-- Embeds `config.CORRELATION_MATRIX` (order: sensitivity_to_loss,
risk_tolerance, decision_consistency, bet_escalation). -/
def CORRELATION_MATRIX : List (List ℚ) :=
  [[1, 30/100, -(20/100), 72/100],
   [30/100, 1, -(15/100), 58/100],
   [-(20/100), -(15/100), 1, -(45/100)],
   [72/100, 58/100, -(45/100), 1]]

/-- Embeds `config.LATENT_FACTOR_STDS = [15, 12, 10, 0.5]`. -/
def LATENT_FACTOR_STDS : List ℚ := [15, 12, 10, 1/2]

/-- Embeds `config.LATENT_FACTOR_MEANS['low_risk'] = [30, 35, 70, 1.0]`. -/
def LOW_RISK_LATENT_MEANS : List ℚ := [30, 35, 70, 1]

/-- Embeds the module-import-time assert of `config.py` that the global
correlation matrix is symmetric (`np.allclose(M, M.T)`). -/
def configSymmetryAssert : Bool := matSymCheck CORRELATION_MATRIX

/-- Embeds the module-import-time assert of `config.py` that the global
correlation matrix has unit diagonal (`np.allclose(np.diag(M), 1.0)`). -/
def configUnitDiagAssert : Bool :=
  (List.range CORRELATION_MATRIX.length).all fun i =>
    allcloseQ (matEntry CORRELATION_MATRIX i i) 1

/-- Auxiliary: `np.allclose` holds on equal values. -/
theorem allcloseQ_of_eq (a b : ℚ) (h : a = b) : allcloseQ a b = true := by
  subst h
  simp only [allcloseQ, sub_self, abs_zero, decide_eq_true_eq]
  positivity

/-- Counterexample to claim C6: the latent-factor engine performs no
unit-diagonal check — handed the symmetric positive-definite matrix
`[[2, 0], [0, 2]]`, whose diagonal is 2, it validates successfully and
proceeds to generate, so the engine does not check the correlation matrix
for unit diagonal before use. -/
theorem engine_unit_diagonal_counterexample :
    generate_correlated_variables_check [[2, 0], [0, 2]] [0, 0] [1, 1] =
      .ok () ∧
    allcloseQ (matEntry [[2, 0], [0, 2]] 0 0) 1 = false := by
  constructor
  · rw [generate_correlated_variables_check]
    rw [if_neg (by norm_num [matSymCheck, allcloseQ, matEntry, List.range_succ])]
    rw [if_neg (by norm_num), if_neg (by norm_num)]
    rw [if_neg ?hpd]
    case hpd =>
      norm_num [posDefCheck, covMatrix, detQ, detQAux, leadingMinor, dropCol,
        matEntry, List.range_succ]
  · norm_num [allcloseQ, matEntry]

/-- Claim C6 (amended): before sampling, the engine checks the correlation
matrix for symmetry and for dimension agreement with the mean and
standard-deviation vectors, raising `ValueError` — it does not check the
unit diagonal (that, like symmetry of the global matrix, is only asserted
at config-module import); when `Σ = D·R·D` is not positive definite the
`np.linalg.cholesky` failure is re-raised as a `ValueError` at the first
generation call rather than a `ConfigurationError` at configuration-load
time; and on the repository configuration (`CORRELATION_MATRIX`,
`LATENT_FACTOR_STDS`) the covariance is positive definite, so generation
proceeds without error. -/
theorem engine_validation_amended :
    generate_correlated_variables_check [[1, 0], [1, 1]] [0, 0] [1, 1] =
      .error .notSymmetric ∧
    generate_correlated_variables_check [[1, 2], [2, 1]] [0, 0] [1, 1] =
      .error .notPositiveDefinite ∧
    generate_correlated_variables_check CORRELATION_MATRIX LOW_RISK_LATENT_MEANS
      LATENT_FACTOR_STDS = .ok () ∧
    configSymmetryAssert = true ∧
    configUnitDiagAssert = true := by
  refine ⟨?_, ?_, ?_, ?_, ?_⟩
  · rw [generate_correlated_variables_check]
    rw [if_pos (by norm_num [matSymCheck, allcloseQ, matEntry, List.range_succ])]
  · rw [generate_correlated_variables_check]
    rw [if_neg (by norm_num [matSymCheck, allcloseQ, matEntry, List.range_succ])]
    rw [if_neg (by norm_num), if_neg (by norm_num)]
    rw [if_pos ?hpd]
    case hpd =>
      norm_num [posDefCheck, covMatrix, detQ, detQAux, leadingMinor, dropCol,
        matEntry, List.range_succ]
  · have hcov : covMatrix CORRELATION_MATRIX LATENT_FACTOR_STDS =
        [[225, 54, -30, 27/5], [54, 144, -18, 87/25],
         [-30, -18, 100, -(9/4)], [27/5, 87/25, -(9/4), 1/4]] := by
      norm_num [covMatrix, matEntry, CORRELATION_MATRIX, LATENT_FACTOR_STDS,
        List.range_succ]
    have e1 : detQ [[(225:ℚ)]] = 225 := by norm_num [detQ, detQAux_one]
    have e2 : detQ [[(225:ℚ), 54], [54, 144]] = 29484 := by
      norm_num [detQ, detQAux_two]
    have e3 : detQ [[(225:ℚ), 54, -30], [54, 144, -18], [-30, -18, 100]] =
        2804220 := by
      norm_num [detQ, detQAux_three]
    have e4 : detQ [[(225:ℚ), 54, -30, 27/5], [54, 144, -18, 87/25],
        [-30, -18, 100, -(9/4)], [27/5, 87/25, -(9/4), 1/4]] = 18181989/100 := by
      norm_num [detQ, detQAux_four]
    have hpdtrue : posDefCheck (covMatrix CORRELATION_MATRIX LATENT_FACTOR_STDS) =
        true := by
      rw [hcov]
      norm_num [posDefCheck, leadingMinor, List.range_succ, e1, e2, e3, e4]
    rw [generate_correlated_variables_check]
    rw [if_neg (by simp [matSymCheck, matEntry, CORRELATION_MATRIX,
      List.range_succ, allcloseQ_of_eq])]
    rw [if_neg (by norm_num [CORRELATION_MATRIX, LOW_RISK_LATENT_MEANS])]
    rw [if_neg (by norm_num [CORRELATION_MATRIX, LATENT_FACTOR_STDS])]
    rw [if_neg (by simp [hpdtrue])]
  · simp [configSymmetryAssert, matSymCheck, matEntry, CORRELATION_MATRIX,
      List.range_succ, allcloseQ_of_eq]
  · simp [configUnitDiagAssert, matEntry, CORRELATION_MATRIX,
      List.range_succ, allcloseQ_of_eq]

/-- Embeds Python `round(x)` to an integer (round-half-to-even), the
rounding `utils.round_to_cents` applies at cent resolution. -/
def bankersRound (q : ℚ) : ℤ :=
  let n := ⌊q⌋
  let f := q - n
  if f < 1/2 then n
  else if 1/2 < f then n + 1
  else if n % 2 = 0 then n else n + 1

/-- Embeds `utils.round_to_cents` (`round(amount, 2)`). -/
def round_to_cents (amount : ℚ) : ℚ := (bankersRound (amount * 100) : ℚ) / 100

/-- Embeds `config.BEHAVIOR_RANGES['low_risk']['base_bet_amount'] = (10, 50)`. -/
def LOW_RISK_BASE_BET_RANGE : ℚ × ℚ := (10, 50)

/-- The amount of the first bet `generate_bets_for_single_player` emits for a
player: `base_bet_amount = sample_from_range(behavior['base_bet_amount'])`
— a draw of the never-seeded Python-stdlib `random` module, with unit draw
`uPy` — feeds the state machine, whose first `get_next_bet_amount` call (in
state `NORMAL`) multiplies it by `uniform(0.8, 1.2)` — a draw of the seeded
numpy generator, with unit draw `uNp` — and the result is floored at $0.01
and rounded to cents. -/
def firstBetAmount (lo hi uPy uNp escArg chaseArg pctArg : ℚ) : ℚ :=
  let baseBet := sample_from_range lo hi uPy
  let m := BettingStateMachine.init baseBet escArg chaseArg pctArg
  round_to_cents (max (1/100) (m.getNextBetAmount uNp))

/-- Claim C1 (code bug): the pipeline seeds only the numpy generator
(`np.random.seed`), while `sample_from_range`, `generate_realistic_odds`
and the assessment dates draw from the never-seeded Python-stdlib `random`
module, so reruns with the same seed are not byte-identical: holding every
seeded numpy draw fixed (`uNp = 1/2`), two runs whose unseeded
`sample_from_range` base-bet draws differ (`uPy = 0` versus `uPy = 1`, both
legal unit draws) emit different first-bet amounts ($10.00 versus $50.00)
for the same low-risk player. -/
theorem rerun_not_reproducible :
    firstBetAmount LOW_RISK_BASE_BET_RANGE.1 LOW_RISK_BASE_BET_RANGE.2 0 (1/2)
      1 (1/4) (1/10) = 10 ∧
    firstBetAmount LOW_RISK_BASE_BET_RANGE.1 LOW_RISK_BASE_BET_RANGE.2 1 (1/2)
      1 (1/4) (1/10) = 50 ∧
    firstBetAmount LOW_RISK_BASE_BET_RANGE.1 LOW_RISK_BASE_BET_RANGE.2 0 (1/2)
      1 (1/4) (1/10) ≠
      firstBetAmount LOW_RISK_BASE_BET_RANGE.1 LOW_RISK_BASE_BET_RANGE.2 1 (1/2)
        1 (1/4) (1/10) := by
  have h10 : firstBetAmount LOW_RISK_BASE_BET_RANGE.1 LOW_RISK_BASE_BET_RANGE.2 0
      (1/2) 1 (1/4) (1/10) = 10 := by
    rw [firstBetAmount]
    norm_num [sample_from_range, LOW_RISK_BASE_BET_RANGE,
      BettingStateMachine.init, BettingStateMachine.getNextBetAmount,
      round_to_cents, bankersRound]
  have h50 : firstBetAmount LOW_RISK_BASE_BET_RANGE.1 LOW_RISK_BASE_BET_RANGE.2 1
      (1/2) 1 (1/4) (1/10) = 50 := by
    rw [firstBetAmount]
    norm_num [sample_from_range, LOW_RISK_BASE_BET_RANGE,
      BettingStateMachine.init, BettingStateMachine.getNextBetAmount,
      round_to_cents, bankersRound]
  refine ⟨h10, h50, ?_⟩
  rw [h10, h50]
  norm_num

end DataGen
